import Mathlib

/-!
Verification of the environment-resolution and channel-configuration layer of
the client-app SDK (`ClientApp` in the main source file).

The constructor, the `pcEnvironment` getter and `about` are embedded directly
from the source.  The environment-catalog module (`utils/env`: `PcEnv`,
`lookupPcEnv`, `DEFAULT_PC_ENV`) and the capability-facade modules are not part
of the provided sources; they are modelled from the specification and marked as
such in their doc comments.
-/

/-- A runtime JavaScript value supplied for one of the three configuration
fields: a string, `undefined`, or any other non-string value.  The source
guards each field with a `typeof x !== 'string'` check at runtime. -/
inductive JSVal where
  | str (s : String)
  | undef
  | nonString
deriving DecidableEq, Repr

/-- Whether a `JSVal` is a string (`typeof v === 'string'`). -/
def JSVal.isStr : JSVal → Bool
  | .str _ => true
  | _ => false

/-- The caller-facing configuration object of the `ClientApp` constructor.
Each field is `none` when the key is absent (`hasOwnProperty` is false) and
`some v` when the key is present holding runtime value `v`. -/
structure Cfg where
  pcEnvironmentQueryParam : Option JSVal
  pcEnvironment : Option JSVal
  pcOrigin : Option JSVal
deriving DecidableEq, Repr

/-- The value the parsed query string (`queryString.parse`) associates with a
parameter name: absent (`undefined`), a single string occurrence, an array of
values for a repeated parameter, or `null` for a parameter with no `=` part. -/
inductive QSVal where
  | absent
  | single (s : String)
  | multiple
  | nullVal
deriving DecidableEq, Repr

/-- Modelled from the spec: an `EnvironmentDescriptor` of the environment
catalog (`PcEnv` of the missing `utils/env` module) — a short top-level-domain
style identifier and the fully qualified host origin backing it. -/
structure PcEnv where
  pcEnvTld : String
  pcAppOrigin : String
deriving DecidableEq, Repr

/-- Modelled from the spec: the static, read-only environment catalog of the
missing `utils/env` module, mapping short environment identifiers to full host
origins; fixed at build time, never mutated. -/
def PC_ENVS : List PcEnv :=
  [⟨"mypurecloud.com", "https://apps.mypurecloud.com"⟩,
   ⟨"mypurecloud.ie", "https://apps.mypurecloud.ie"⟩,
   ⟨"mypurecloud.com.au", "https://apps.mypurecloud.com.au"⟩,
   ⟨"mypurecloud.jp", "https://apps.mypurecloud.jp"⟩,
   ⟨"mypurecloud.de", "https://apps.mypurecloud.de"⟩]

/-- Modelled from the spec: the designated default `EnvironmentDescriptor`
(`DEFAULT_PC_ENV` of the missing `utils/env` module) used when no resolution
mode is supplied. -/
def DEFAULT_PC_ENV : PcEnv := ⟨"mypurecloud.com", "https://apps.mypurecloud.com"⟩

/-- The JavaScript `String.prototype.trim()` primitive used by the source's
blank checks: strip leading and trailing whitespace. -/
def jsTrim (s : String) : String :=
  ⟨((s.data.dropWhile Char.isWhitespace).reverse.dropWhile Char.isWhitespace).reverse⟩

/-- Lower-casing of a string, character by character (JavaScript
`toLowerCase` restricted to the ASCII identifiers of the catalog). -/
def lowerStr (s : String) : String :=
  ⟨s.data.map Char.toLower⟩

/-- Whether `sub` occurs as a contiguous run inside the character list. -/
def containsSub (sub : List Char) : List Char → Bool
  | [] => sub.isEmpty
  | c :: t => sub.isPrefixOf (c :: t) || containsSub sub t

/-- Whether `sub` occurs in `s` as a (possibly improper) substring. -/
def strContains (s sub : String) : Bool :=
  containsSub sub.data s.data

/-- Modelled from the spec: the fuzzy-match acceptance of the catalog lookup —
case-insensitive match of the identifier, also accepting a full origin string
that contains the identifier as a substring (which covers the
regional-prefix variants). -/
def fuzzyMatches (input : String) (e : PcEnv) : Bool :=
  let norm := lowerStr (jsTrim input)
  norm == e.pcEnvTld || strContains norm e.pcEnvTld

/-- Modelled from the spec: `lookupPcEnv(identifierOrOrigin, fuzzy)` of the
missing `utils/env` module.  Exact mode matches only the exact identifier
string; fuzzy mode additionally accepts case-insensitive and
origin-containing-identifier variants.  A blank input never matches; the
lookup never throws. -/
def lookupPcEnv (toMatch : String) (lenient : Bool) : Option PcEnv :=
  if (jsTrim toMatch).length = 0 then none
  else if lenient then PC_ENVS.find? (fun e => fuzzyMatches toMatch e)
  else PC_ENVS.find? (fun e => toMatch == e.pcEnvTld)

/-- The immutable per-facade channel configuration (`apiCfg` in the source):
the target origin shared by every capability facade.  `none` embeds the
JavaScript `null` of the `string | null` union. -/
structure ApiConfig where
  targetPcOrigin : Option String
deriving DecidableEq, Repr

/-- Modelled from the spec: a capability facade constructed with the shared
channel configuration (the `AlertingApi` module is not in the sources). -/
structure AlertingApi where
  cfg : ApiConfig
deriving DecidableEq, Repr

/-- Modelled from the spec: the lifecycle capability facade. -/
structure LifecycleApi where
  cfg : ApiConfig
deriving DecidableEq, Repr

/-- Modelled from the spec: the core-UI capability facade. -/
structure CoreUiApi where
  cfg : ApiConfig
deriving DecidableEq, Repr

/-- Modelled from the spec: the users capability facade. -/
structure UsersApi where
  cfg : ApiConfig
deriving DecidableEq, Repr

/-- Modelled from the spec: the conversations capability facade. -/
structure ConversationsApi where
  cfg : ApiConfig
deriving DecidableEq, Repr

/-- Modelled from the spec: the my-conversations capability facade. -/
structure MyConversationsApi where
  cfg : ApiConfig
deriving DecidableEq, Repr

/-- Modelled from the spec: the external-contacts capability facade. -/
structure ExternalContactsApi where
  cfg : ApiConfig
deriving DecidableEq, Repr

/-- A fully constructed `ClientApp` instance: the resolved environment
(`_pcEnv`), the custom origin (`_customPcOrigin`), and the seven capability
facades built in the constructor. -/
structure ClientApp where
  _pcEnv : Option PcEnv
  _customPcOrigin : Option String
  alerting : AlertingApi
  lifecycle : LifecycleApi
  coreUi : CoreUiApi
  users : UsersApi
  conversations : ConversationsApi
  myConversations : MyConversationsApi
  externalContacts : ExternalContactsApi
deriving DecidableEq, Repr

/-- The resolution phase of the `ClientApp` constructor (source lines 151-184):
given the configuration object (`none` embedding a falsy `cfg`) and the parsed
page query string, produce the `(_pcEnv, _customPcOrigin)` pair, or the thrown
error message.  The three option keys are checked by presence
(`hasOwnProperty`) in fixed priority order. -/
def resolve (cfg? : Option Cfg) (query : String → QSVal) :
    Except String (Option PcEnv × Option String) :=
  match cfg? with
  | none => .ok (none, none)
  | some cfg =>
    match cfg.pcEnvironmentQueryParam with
    | some v =>
      match v with
      | .str paramName =>
        if (jsTrim paramName).length = 0 then
          .error "Invalid query param name provided.  Must be non-null, non-empty string"
        else
          match query paramName with
          | .single s =>
            if s ≠ "" then
              match lookupPcEnv s true with
              | some env => .ok (some env, none)
              | none =>
                .error ("Could not parse " ++ s ++ " into a known PureCloud environment")
            else
              .error ("Could not find unique value for " ++ paramName ++ " parameter on Query String")
          | _ =>
            .error ("Could not find unique value for " ++ paramName ++ " parameter on Query String")
      | _ =>
        .error "Invalid query param name provided.  Must be non-null, non-empty string"
    | none =>
      match cfg.pcEnvironment with
      | some v =>
        match v with
        | .str envTld =>
          if (jsTrim envTld).length = 0 then
            .error "Invalid pcEnvironment provided.  Must be a non-null, non-empty string"
          else
            match lookupPcEnv envTld true with
            | some env => .ok (some env, none)
            | none =>
              .error ("Could not parse " ++ envTld ++ " into a known PureCloud environment")
        | _ =>
          .error "Invalid pcEnvironment provided.  Must be a non-null, non-empty string"
      | none =>
        match cfg.pcOrigin with
        | some v =>
          match v with
          | .str origin =>
            if (jsTrim origin).length = 0 then
              .error "Invalid pcOrigin provided.  Must be a non-null, non-empty string"
            else
              .ok (none, some origin)
          | _ =>
            .error "Invalid pcOrigin provided.  Must be a non-null, non-empty string"
        | none => .ok (none, none)

/-- The full `ClientApp` constructor (source lines 143-202): resolve the
configuration, apply the default-environment fallback, build the shared
`apiCfg` and construct every capability facade with it.  A thrown error is
embedded as `Except.error`. -/
def construct (cfg? : Option Cfg) (query : String → QSVal) : Except String ClientApp :=
  match resolve cfg? query with
  | .error e => .error e
  | .ok (pcEnv0, customOrigin) =>
    let pcEnv := if pcEnv0.isNone && customOrigin.isNone then some DEFAULT_PC_ENV else pcEnv0
    let apiCfg : ApiConfig :=
      ⟨match pcEnv with
        | some e => some e.pcAppOrigin
        | none => customOrigin⟩
    .ok ⟨pcEnv, customOrigin, ⟨apiCfg⟩, ⟨apiCfg⟩, ⟨apiCfg⟩, ⟨apiCfg⟩, ⟨apiCfg⟩, ⟨apiCfg⟩, ⟨apiCfg⟩⟩

/-- The `pcEnvironment` getter (source lines 213-215): the resolved short
environment identifier, or `null` when unknown. -/
def ClientApp.pcEnvironment (app : ClientApp) : Option String :=
  match app._pcEnv with
  | some e => some e.pcEnvTld
  | none => none

/-- The static `about` method (source lines 243-245): the template literal
interpolating the build-time package-name and package-version constants
(injected at build time, hence taken as parameters). -/
def ClientApp.about (packageName packageVersion : String) : String :=
  packageName ++ "v" ++ packageVersion


/-- A descriptor returned by the catalog lookup is a member of the catalog. -/
theorem lookupPcEnv_mem {s : String} {b : Bool} {e : PcEnv}
    (h : lookupPcEnv s b = some e) : e ∈ PC_ENVS := by
  unfold lookupPcEnv at h
  split at h
  · exact absurd h (by simp)
  · split at h
    · exact List.mem_of_find?_eq_some h
    · exact List.mem_of_find?_eq_some h

/-- Every catalog descriptor carries a non-empty host origin. -/
theorem PC_ENVS_origin_ne_empty : ∀ e ∈ PC_ENVS, e.pcAppOrigin ≠ "" := by decide

/-- A string whose JavaScript trim is non-empty is itself non-empty. -/
theorem ne_empty_of_jsTrim_ne {s : String} (h : (jsTrim s).length ≠ 0) : s ≠ "" := by
  rintro rfl
  exact h (by decide)

/-- Shape of a successful resolution: no input (defaulting happens later), a
catalog descriptor with no custom origin, or a custom origin whose trim is
non-empty with no descriptor. -/
theorem resolve_ok_shape (cfg? : Option Cfg) (query : String → QSVal)
    (pe : Option PcEnv) (co : Option String)
    (h : resolve cfg? query = .ok (pe, co)) :
    (pe = none ∧ co = none) ∨
    (∃ e, pe = some e ∧ co = none ∧ e ∈ PC_ENVS) ∨
    (∃ s, pe = none ∧ co = some s ∧ (jsTrim s).length ≠ 0) := by
  unfold resolve at h
  split at h
  · injection h with h'
    injection h' with h1 h2
    exact Or.inl ⟨h1.symm, h2.symm⟩
  · rename_i cfg
    cases hq : cfg.pcEnvironmentQueryParam with
    | some v =>
      rw [hq] at h
      cases v with
      | str paramName =>
        simp only at h
        split at h
        · exact absurd h (by simp)
        · split at h
          · rename_i s hsingle
            split at h
            · split at h
              · rename_i env henv
                injection h with h'
                injection h' with h1 h2
                exact Or.inr (Or.inl ⟨env, h1.symm, h2.symm, lookupPcEnv_mem henv⟩)
              · exact absurd h (by simp)
            · exact absurd h (by simp)
          · exact absurd h (by simp)
      | undef => exact absurd h (by simp)
      | nonString => exact absurd h (by simp)
    | none =>
      rw [hq] at h
      cases he : cfg.pcEnvironment with
      | some v =>
        rw [he] at h
        cases v with
        | str envTld =>
          simp only at h
          split at h
          · exact absurd h (by simp)
          · split at h
            · rename_i env henv
              injection h with h'
              injection h' with h1 h2
              exact Or.inr (Or.inl ⟨env, h1.symm, h2.symm, lookupPcEnv_mem henv⟩)
            · exact absurd h (by simp)
        | undef => exact absurd h (by simp)
        | nonString => exact absurd h (by simp)
      | none =>
        rw [he] at h
        cases ho : cfg.pcOrigin with
        | some v =>
          rw [ho] at h
          cases v with
          | str origin =>
            simp only at h
            split at h
            · exact absurd h (by simp)
            · rename_i htrim
              injection h with h'
              injection h' with h1 h2
              exact Or.inr (Or.inr ⟨origin, h1.symm, h2.symm, htrim⟩)
          | undef => exact absurd h (by simp)
          | nonString => exact absurd h (by simp)
        | none =>
          rw [ho] at h
          injection h with h'
          injection h' with h1 h2
          exact Or.inl ⟨h1.symm, h2.symm⟩

/-- C1: on every successful construction the channel configuration's target
origin is a non-empty string, it is either the host origin of a catalog
environment descriptor or the caller-supplied custom origin, and exactly one
of the resolved-descriptor / resolved-custom-origin fields is produced,
never both and never neither. -/
theorem construct_targetOrigin_invariant (cfg? : Option Cfg) (query : String → QSVal)
    (app : ClientApp) (h : construct cfg? query = .ok app) :
    ∃ s, app.alerting.cfg.targetPcOrigin = some s ∧ s ≠ "" ∧
      ((∃ e, e ∈ PC_ENVS ∧ app._pcEnv = some e ∧ app._customPcOrigin = none ∧
          s = e.pcAppOrigin) ∨
       (app._pcEnv = none ∧ ∃ co, app._customPcOrigin = some co ∧ s = co)) := by
  unfold construct at h
  split at h
  · exact absurd h (by simp)
  · rename_i pr pe co hres
    rcases resolve_ok_shape cfg? query pe co hres with ⟨h1, h2⟩ | ⟨e, h1, h2, hmem⟩ | ⟨s, h1, h2, hne⟩
    · subst h1; subst h2
      injection h with h'
      subst h'
      refine ⟨DEFAULT_PC_ENV.pcAppOrigin, rfl, by decide, Or.inl ⟨DEFAULT_PC_ENV, by decide, rfl, rfl, rfl⟩⟩
    · subst h1; subst h2
      injection h with h'
      subst h'
      exact ⟨e.pcAppOrigin, rfl, PC_ENVS_origin_ne_empty e hmem, Or.inl ⟨e, hmem, rfl, rfl, rfl⟩⟩
    · subst h1; subst h2
      injection h with h'
      subst h'
      exact ⟨s, rfl, ne_empty_of_jsTrim_ne hne, Or.inr ⟨rfl, s, rfl, rfl⟩⟩

/-- Witness for C1 at a concrete custom-origin configuration. -/
theorem construct_targetOrigin_invariant_witness :
    ∃ s, (⟨none, some "https://example-host.test", ⟨⟨some "https://example-host.test"⟩⟩,
        ⟨⟨some "https://example-host.test"⟩⟩, ⟨⟨some "https://example-host.test"⟩⟩,
        ⟨⟨some "https://example-host.test"⟩⟩, ⟨⟨some "https://example-host.test"⟩⟩,
        ⟨⟨some "https://example-host.test"⟩⟩, ⟨⟨some "https://example-host.test"⟩⟩⟩ :
          ClientApp).alerting.cfg.targetPcOrigin = some s ∧ s ≠ "" ∧
      ((∃ e, e ∈ PC_ENVS ∧
          (⟨none, some "https://example-host.test", ⟨⟨some "https://example-host.test"⟩⟩,
            ⟨⟨some "https://example-host.test"⟩⟩, ⟨⟨some "https://example-host.test"⟩⟩,
            ⟨⟨some "https://example-host.test"⟩⟩, ⟨⟨some "https://example-host.test"⟩⟩,
            ⟨⟨some "https://example-host.test"⟩⟩, ⟨⟨some "https://example-host.test"⟩⟩⟩ :
              ClientApp)._pcEnv = some e ∧
          (⟨none, some "https://example-host.test", ⟨⟨some "https://example-host.test"⟩⟩,
            ⟨⟨some "https://example-host.test"⟩⟩, ⟨⟨some "https://example-host.test"⟩⟩,
            ⟨⟨some "https://example-host.test"⟩⟩, ⟨⟨some "https://example-host.test"⟩⟩,
            ⟨⟨some "https://example-host.test"⟩⟩, ⟨⟨some "https://example-host.test"⟩⟩⟩ :
              ClientApp)._customPcOrigin = none ∧ s = e.pcAppOrigin) ∨
       ((⟨none, some "https://example-host.test", ⟨⟨some "https://example-host.test"⟩⟩,
            ⟨⟨some "https://example-host.test"⟩⟩, ⟨⟨some "https://example-host.test"⟩⟩,
            ⟨⟨some "https://example-host.test"⟩⟩, ⟨⟨some "https://example-host.test"⟩⟩,
            ⟨⟨some "https://example-host.test"⟩⟩, ⟨⟨some "https://example-host.test"⟩⟩⟩ :
              ClientApp)._pcEnv = none ∧
        ∃ co, (⟨none, some "https://example-host.test", ⟨⟨some "https://example-host.test"⟩⟩,
            ⟨⟨some "https://example-host.test"⟩⟩, ⟨⟨some "https://example-host.test"⟩⟩,
            ⟨⟨some "https://example-host.test"⟩⟩, ⟨⟨some "https://example-host.test"⟩⟩,
            ⟨⟨some "https://example-host.test"⟩⟩, ⟨⟨some "https://example-host.test"⟩⟩⟩ :
              ClientApp)._customPcOrigin = some co ∧ s = co)) :=
  construct_targetOrigin_invariant
    (some ⟨none, none, some (.str "https://example-host.test")⟩) (fun _ => .absent) _ rfl

/-- C2: the three resolution modes are checked by key presence in the fixed
priority order query-param, environment, origin; when a higher-priority key is
present the lower-priority fields are ignored entirely, so the construction
result does not depend on them. -/
theorem construct_mode_priority (v : JSVal) (e₁ e₂ o₁ o₂ : Option JSVal)
    (query : String → QSVal) :
    construct (some ⟨some v, e₁, o₁⟩) query = construct (some ⟨some v, e₂, o₂⟩) query ∧
    construct (some ⟨none, some v, o₁⟩) query = construct (some ⟨none, some v, o₂⟩) query := by
  constructor <;> rfl

/-- Assemble a `ClientApp` record whose seven facades all share the channel
configuration with the given target origin. -/
def mkClientApp (pe : Option PcEnv) (co : Option String) (t : Option String) : ClientApp :=
  ⟨pe, co, ⟨⟨t⟩⟩, ⟨⟨t⟩⟩, ⟨⟨t⟩⟩, ⟨⟨t⟩⟩, ⟨⟨t⟩⟩, ⟨⟨t⟩⟩, ⟨⟨t⟩⟩⟩

/-- C3: a non-blank explicit origin is accepted verbatim — construction
succeeds, the target origin equals the supplied value even when the catalog
does not know it, and the resolved-environment accessor returns null. -/
theorem explicit_origin_verbatim (s : String) (query : String → QSVal)
    (h : (jsTrim s).length ≠ 0) :
    construct (some ⟨none, none, some (.str s)⟩) query =
      .ok (mkClientApp none (some s) (some s)) ∧
    (mkClientApp none (some s) (some s)).alerting.cfg.targetPcOrigin = some s ∧
    (mkClientApp none (some s) (some s)).pcEnvironment = none := by
  refine ⟨?_, rfl, rfl⟩
  unfold construct resolve
  simp [h, mkClientApp]

/-- Witness for C3 at the spec's example origin, which is not in the catalog. -/
theorem explicit_origin_verbatim_witness :
    construct (some ⟨none, none, some (.str "https://example-host.test")⟩) (fun _ => .absent) =
      .ok (mkClientApp none (some "https://example-host.test") (some "https://example-host.test")) ∧
    (mkClientApp none (some "https://example-host.test")
        (some "https://example-host.test")).alerting.cfg.targetPcOrigin =
      some "https://example-host.test" ∧
    (mkClientApp none (some "https://example-host.test")
        (some "https://example-host.test")).pcEnvironment = none :=
  explicit_origin_verbatim "https://example-host.test" (fun _ => .absent) (by decide)

/-- C4: construction is atomic — a resolver error propagates unchanged as the
result of construction (no facade is produced), and on success all seven
facades are built with the identical configuration object. -/
theorem construction_atomic (cfg? : Option Cfg) (query : String → QSVal) :
    (∀ e, resolve cfg? query = .error e → construct cfg? query = .error e) ∧
    (∀ app, construct cfg? query = .ok app →
      app.alerting.cfg = app.lifecycle.cfg ∧ app.alerting.cfg = app.coreUi.cfg ∧
      app.alerting.cfg = app.users.cfg ∧ app.alerting.cfg = app.conversations.cfg ∧
      app.alerting.cfg = app.myConversations.cfg ∧
      app.alerting.cfg = app.externalContacts.cfg) := by
  constructor
  · intro e he
    unfold construct
    rw [he]
  · intro app happ
    unfold construct at happ
    split at happ
    · exact absurd happ (by simp)
    · injection happ with h'
      subst h'
      exact ⟨rfl, rfl, rfl, rfl, rfl, rfl⟩

/-- Witness for C4: a repeated query parameter propagates its error, and a
default construction shares one configuration across the facades. -/
theorem construction_atomic_witness :
    construct (some ⟨some (.str "env"), none, none⟩) (fun _ => .multiple) =
      .error ("Could not find unique value for " ++ "env" ++ " parameter on Query String") ∧
    ((mkClientApp (some DEFAULT_PC_ENV) none (some "https://apps.mypurecloud.com")).alerting.cfg =
        (mkClientApp (some DEFAULT_PC_ENV) none (some "https://apps.mypurecloud.com")).lifecycle.cfg ∧
      (mkClientApp (some DEFAULT_PC_ENV) none (some "https://apps.mypurecloud.com")).alerting.cfg =
        (mkClientApp (some DEFAULT_PC_ENV) none (some "https://apps.mypurecloud.com")).coreUi.cfg ∧
      (mkClientApp (some DEFAULT_PC_ENV) none (some "https://apps.mypurecloud.com")).alerting.cfg =
        (mkClientApp (some DEFAULT_PC_ENV) none (some "https://apps.mypurecloud.com")).users.cfg ∧
      (mkClientApp (some DEFAULT_PC_ENV) none (some "https://apps.mypurecloud.com")).alerting.cfg =
        (mkClientApp (some DEFAULT_PC_ENV) none (some "https://apps.mypurecloud.com")).conversations.cfg ∧
      (mkClientApp (some DEFAULT_PC_ENV) none (some "https://apps.mypurecloud.com")).alerting.cfg =
        (mkClientApp (some DEFAULT_PC_ENV) none (some "https://apps.mypurecloud.com")).myConversations.cfg ∧
      (mkClientApp (some DEFAULT_PC_ENV) none (some "https://apps.mypurecloud.com")).alerting.cfg =
        (mkClientApp (some DEFAULT_PC_ENV) none (some "https://apps.mypurecloud.com")).externalContacts.cfg) :=
  ⟨(construction_atomic (some ⟨some (.str "env"), none, none⟩) (fun _ => .multiple)).1 _ rfl,
   (construction_atomic (some ⟨none, none, none⟩) (fun _ => .absent)).2
     (mkClientApp (some DEFAULT_PC_ENV) none (some "https://apps.mypurecloud.com")) rfl⟩

/-- C5: in query-param mode, a non-blank parameter name whose value occurs as
a single string in the page query string and fuzzy-matches a catalog
environment yields a successful construction whose target origin is that
environment's catalog origin. -/
theorem queryparam_match_resolves (paramName s : String) (d : PcEnv)
    (e? o? : Option JSVal) (query : String → QSVal)
    (hname : (jsTrim paramName).length ≠ 0)
    (hq : query paramName = .single s)
    (hl : lookupPcEnv s true = some d) :
    construct (some ⟨some (.str paramName), e?, o?⟩) query =
      .ok (mkClientApp (some d) none (some d.pcAppOrigin)) ∧
    (mkClientApp (some d) none (some d.pcAppOrigin)).alerting.cfg.targetPcOrigin =
      some d.pcAppOrigin := by
  have hs : s ≠ "" := by
    rintro rfl
    rw [show lookupPcEnv "" true = none from rfl] at hl
    exact absurd hl (by simp)
  refine ⟨?_, rfl⟩
  unfold construct resolve
  simp [hname, hq, hs, hl, mkClientApp]

/-- Witness for C5 at the spec's example: parameter `pcEnvironment` holding
`mypurecloud.com` exactly once. -/
theorem queryparam_match_resolves_witness :
    construct (some ⟨some (.str "pcEnvironment"), none, none⟩)
        (fun n => if n = "pcEnvironment" then .single "mypurecloud.com" else .absent) =
      .ok (mkClientApp (some ⟨"mypurecloud.com", "https://apps.mypurecloud.com"⟩) none
        (some "https://apps.mypurecloud.com")) ∧
    (mkClientApp (some ⟨"mypurecloud.com", "https://apps.mypurecloud.com"⟩) none
        (some "https://apps.mypurecloud.com")).alerting.cfg.targetPcOrigin =
      some "https://apps.mypurecloud.com" :=
  queryparam_match_resolves "pcEnvironment" "mypurecloud.com"
    ⟨"mypurecloud.com", "https://apps.mypurecloud.com"⟩ none none
    (fun n => if n = "pcEnvironment" then .single "mypurecloud.com" else .absent)
    (by decide) (by decide) (by decide)

/-- C6: in query-param mode, a parameter that is absent from the page query
string or occurs with more than one value makes construction fail with a
configuration error, whatever the other fields hold. -/
theorem queryparam_missing_or_repeated_error (paramName : String)
    (e? o? : Option JSVal) (query : String → QSVal)
    (h : query paramName = .absent ∨ query paramName = .multiple) :
    ∃ msg, construct (some ⟨some (.str paramName), e?, o?⟩) query = .error msg := by
  by_cases ht : (jsTrim paramName).length = 0
  · exact ⟨"Invalid query param name provided.  Must be non-null, non-empty string",
      by unfold construct resolve; simp [ht]⟩
  · refine ⟨"Could not find unique value for " ++ paramName ++ " parameter on Query String", ?_⟩
    rcases h with h | h <;> (unfold construct resolve; simp [ht, h])

/-- Witness for C6: the repeated-parameter example of the spec. -/
theorem queryparam_missing_or_repeated_error_witness :
    ∃ msg, construct (some ⟨some (.str "env"), none, none⟩) (fun _ => .multiple) =
      .error msg :=
  queryparam_missing_or_repeated_error "env" none none (fun _ => .multiple) (Or.inr rfl)

/-- C7: an empty or all-whitespace string supplied as the value of the honored
input mode makes construction fail with a configuration error, in each of the
three modes. -/
theorem blank_mode_value_error (s : String) (v o? : Option JSVal)
    (query : String → QSVal) (h : (jsTrim s).length = 0) :
    construct (some ⟨some (.str s), v, o?⟩) query =
      .error "Invalid query param name provided.  Must be non-null, non-empty string" ∧
    construct (some ⟨none, some (.str s), o?⟩) query =
      .error "Invalid pcEnvironment provided.  Must be a non-null, non-empty string" ∧
    construct (some ⟨none, none, some (.str s)⟩) query =
      .error "Invalid pcOrigin provided.  Must be a non-null, non-empty string" := by
  refine ⟨?_, ?_, ?_⟩ <;> (unfold construct resolve; simp [h])

/-- Witness for C7 at an all-whitespace value. -/
theorem blank_mode_value_error_witness :
    construct (some ⟨some (.str "  "), none, none⟩) (fun _ => .absent) =
      .error "Invalid query param name provided.  Must be non-null, non-empty string" ∧
    construct (some ⟨none, some (.str "  "), none⟩) (fun _ => .absent) =
      .error "Invalid pcEnvironment provided.  Must be a non-null, non-empty string" ∧
    construct (some ⟨none, none, some (.str "  ")⟩) (fun _ => .absent) =
      .error "Invalid pcOrigin provided.  Must be a non-null, non-empty string" :=
  blank_mode_value_error "  " none none (fun _ => .absent) (by decide)

/-- C8: supplying none of the three mode options makes construction succeed on
the designated default environment — the target origin is the default
environment's origin and the resolved-environment accessor returns its short
identifier. -/
theorem default_environment_resolution (query : String → QSVal) :
    construct (some ⟨none, none, none⟩) query =
      .ok (mkClientApp (some DEFAULT_PC_ENV) none (some DEFAULT_PC_ENV.pcAppOrigin)) ∧
    (mkClientApp (some DEFAULT_PC_ENV) none
        (some DEFAULT_PC_ENV.pcAppOrigin)).alerting.cfg.targetPcOrigin =
      some DEFAULT_PC_ENV.pcAppOrigin ∧
    (mkClientApp (some DEFAULT_PC_ENV) none
        (some DEFAULT_PC_ENV.pcAppOrigin)).pcEnvironment =
      some DEFAULT_PC_ENV.pcEnvTld :=
  ⟨rfl, rfl, rfl⟩

/-- C9 counterexample: the `about` template literal concatenates the package
name, the letter v and the version with no separating space, so at a concrete
package name and version the claimed form with a space does not hold. -/
theorem about_missing_space_cex :
    ClientApp.about "client-app-sdk" "1.0.0" = "client-app-sdkv1.0.0" ∧
    ClientApp.about "client-app-sdk" "1.0.0" ≠ "client-app-sdk v1.0.0" := by
  exact ⟨rfl, by decide⟩

/-- C9 amended: `about` returns the package-name constant directly followed by
the letter v and the package-version constant, with no separating space. -/
theorem about_concatenated_descriptor (packageName packageVersion : String) :
    ClientApp.about packageName packageVersion = packageName ++ "v" ++ packageVersion :=
  rfl

/-- C10: mode selection is by key presence — a present `pcEnvironmentQueryParam`
key holding a non-string value makes construction throw, whatever the
lower-priority `pcEnvironment` and `pcOrigin` fields hold. -/
theorem queryparam_nonstring_error (v : JSVal) (e? o? : Option JSVal)
    (query : String → QSVal) (hv : v.isStr = false) :
    construct (some ⟨some v, e?, o?⟩) query =
      .error "Invalid query param name provided.  Must be non-null, non-empty string" := by
  cases v with
  | str s => exact absurd hv (by simp [JSVal.isStr])
  | undef => rfl
  | nonString => rfl

/-- Witness for C10: an undefined query-param key wins over valid environment
and origin values. -/
theorem queryparam_nonstring_error_witness :
    construct (some ⟨some .undef, some (.str "mypurecloud.com"),
        some (.str "https://apps.mypurecloud.com")⟩) (fun _ => .absent) =
      .error "Invalid query param name provided.  Must be non-null, non-empty string" :=
  queryparam_nonstring_error .undef (some (.str "mypurecloud.com"))
    (some (.str "https://apps.mypurecloud.com")) (fun _ => .absent) rfl
